import Mathlib

/-!
Verification development for the Adafruit_SH110x OLED driver
(src/Adafruit_SH110X.h and src/Adafruit_SH1107.cpp).

The embedding below translates the command defines of Adafruit_SH110X.h,
the `Adafruit_SH1107::begin` initialization routine, and — where only the
declaration is present under src/ — models the framebuffer / flush engine
from the specification document.
-/

namespace SH110x

/-! ## Command defines, from src/Adafruit_SH110X.h -/

def SH110X_MEMORYMODE : Nat := 0x20
def SH110X_COLUMNADDR : Nat := 0x21
def SH110X_PAGEADDR : Nat := 0x22
def SH110X_SETCONTRAST : Nat := 0x81
def SH110X_CHARGEPUMP : Nat := 0x8D
def SH110X_SEGREMAP : Nat := 0xA0
def SH110X_DISPLAYALLON_RESUME : Nat := 0xA4
def SH110X_DISPLAYALLON : Nat := 0xA5
def SH110X_NORMALDISPLAY : Nat := 0xA6
def SH110X_INVERTDISPLAY : Nat := 0xA7
def SH110X_SETMULTIPLEX : Nat := 0xA8
def SH110X_DISPLAYOFF : Nat := 0xAE
def SH110X_DISPLAYON : Nat := 0xAF
def SH110X_SETPAGEADDR : Nat := 0xB0
def SH110X_COMSCANINC : Nat := 0xC0
def SH110X_COMSCANDEC : Nat := 0xC8
def SH110X_SETDISPLAYOFFSET : Nat := 0xD3
def SH110X_SETDISPLAYCLOCKDIV : Nat := 0xD5
def SH110X_SETPRECHARGE : Nat := 0xD9
def SH110X_SETCOMPINS : Nat := 0xDA
def SH110X_SETVCOMDETECT : Nat := 0xDB
def SH110X_SETDISPSTARTLINE : Nat := 0xDC
def SH110X_SETLOWCOLUMN : Nat := 0x00
def SH110X_SETHIGHCOLUMN : Nat := 0x10
def SH110X_SETSTARTLINE : Nat := 0x40

/-- Modelled from the spec: the `SH110X_DCDC` opcode define used by
`Adafruit_SH1107::begin` is absent from src/Adafruit_SH110X.h; its value
0xAD is taken from the inline comment in src/Adafruit_SH1107.cpp
(`SH110X_DCDC, 0x8A,` annotated as 0xAD, 0x8A). -/
def SH110X_DCDC : Nat := 0xAD

/-! ## The fixed init command list of `Adafruit_SH1107::begin`
(src/Adafruit_SH1107.cpp, the `static const uint8_t init[]` array),
byte for byte in source order. -/

def sh1107InitList : List Nat :=
  [SH110X_DISPLAYOFF,
   SH110X_SETDISPLAYCLOCKDIV, 0x51,
   SH110X_MEMORYMODE,
   SH110X_SETCONTRAST, 0x4F,
   SH110X_DCDC, 0x8A,
   SH110X_SEGREMAP,
   SH110X_COMSCANINC,
   SH110X_SETDISPSTARTLINE, 0x0,
   SH110X_SETDISPLAYOFFSET, 0x60,
   SH110X_SETPRECHARGE, 0x22,
   SH110X_SETVCOMDETECT, 0x35,
   SH110X_SETMULTIPLEX, 0x3F,
   SH110X_DISPLAYALLON_RESUME,
   SH110X_NORMALDISPLAY]

/-! ## Trace model of `Adafruit_SH1107::begin` -/

/-- Observable effects of a `begin` run, in program order. -/
inductive Ev where
  /-- the call `Adafruit_GrayOLED::_init(addr, reset)` with the arguments it received -/
  | initCall (addr : Nat) (reset : Bool) : Ev
  /-- a hardware reset pulse on the configured reset pin -/
  | resetPulse : Ev
  /-- the `setContrast(level)` call -/
  | contrast (level : Nat) : Ev
  /-- a `setRotation(r)` call -/
  | setRot (r : Nat) : Ev
  /-- the `drawBitmap(..., splash2_data, ...)` splash draw -/
  | splashDraw : Ev
  /-- one `oled_commandList(bs, len)` submission carrying the bytes `bs` -/
  | cmdList (bs : List Nat) : Ev
  /-- a `delay(ms)` call -/
  | delayMs (ms : Nat) : Ev
  /-- one `oled_command(b)` single-command transfer -/
  | cmd (b : Nat) : Ev
deriving DecidableEq, Repr

/-- Outcomes of the bus transfers a `begin` run performs: the `_init`
step (transport setup, buffer allocation, optional reset), the
`oled_commandList(init, ...)` submission, and the final
`oled_command(SH110X_DISPLAYON)` transfer. -/
structure BusOracle where
  initOk : Bool
  listOk : Bool
  displayOnOk : Bool
deriving DecidableEq, Repr

/-- Physical display geometry: the `WIDTH`/`HEIGHT` members fixed at
construction (raw, rotation-independent dimensions). -/
structure Geom where
  WIDTH : Nat
  HEIGHT : Nat
deriving DecidableEq, Repr

/-- Modelled from the spec: the body of `Adafruit_GrayOLED::_init(addr,
reset)` is outside src/ (only the call site is in
src/Adafruit_SH1107.cpp). Per spec section 4.5, a hardware reset pulse is
issued exactly when a valid reset pin is configured and the caller
requests a reset; otherwise the state machine skips directly from
Uninitialized to Configuring with no reset-pin operation. -/
def grayOledInit (rstPinValid : Bool) (addr : Nat) (reset : Bool) : List Ev :=
  Ev.initCall addr reset :: (if rstPinValid && reset then [Ev.resetPulse] else [])

/-- Result of a `begin` run: the boolean return value, the effect trace,
and the rotation state after the run (rotation before the run is an input
of `begin` below). -/
structure BeginOut where
  ok : Bool
  events : List Ev
  rotation : Nat
deriving DecidableEq, Repr

/-- `Adafruit_SH1107::begin(addr, reset)` from src/Adafruit_SH1107.cpp,
as a trace over the bus-outcome oracle `o`:
* `Adafruit_GrayOLED::_init(addr, reset)` is called, its result discarded;
* `setContrast(0x2F)`;
* if `WIDTH == 64 && HEIGHT == 128`: `setRotation(1)`, splash
  `drawBitmap`, `setRotation(0)`;
* `oled_commandList(init, sizeof(init))`; on failure `return false`;
* `delay(100)`; `oled_command(SH110X_DISPLAYON)` (result discarded);
* `return true`. -/
def begin (g : Geom) (rstPinValid : Bool) (rot : Nat) (addr : Nat)
    (reset : Bool) (o : BusOracle) : BeginOut :=
  let initEvs := grayOledInit rstPinValid addr reset
  let contrastEvs := [Ev.contrast 0x2F]
  let splashEvs :=
    if g.WIDTH = 64 ∧ g.HEIGHT = 128
    then [Ev.setRot 1, Ev.splashDraw, Ev.setRot 0] else []
  let rot2 := if g.WIDTH = 64 ∧ g.HEIGHT = 128 then 0 else rot
  let pre := initEvs ++ contrastEvs ++ splashEvs
  if o.listOk
  then ⟨true, pre ++ [Ev.cmdList sh1107InitList, Ev.delayMs 100,
                      Ev.cmd SH110X_DISPLAYON], rot2⟩
  else ⟨false, pre ++ [Ev.cmdList sh1107InitList], rot2⟩

/-- An event is a controller-command submission issued through the
command sequencer (`oled_commandList` or `oled_command`). -/
def Ev.isSubmission : Ev → Bool
  | .cmdList _ => true
  | .cmd _ => true
  | _ => false

/-! ## Framebuffer, rotation transform and flush engine

`Adafruit_SH110X::display()` and the pixel-writing path are only declared
in src/Adafruit_SH110X.h; their bodies are outside src/, so the
definitions below are modelled from the specification (sections 3, 4.1,
4.2, 4.4). -/

/-- Pixel colors of the drawing contract (`SH110X_BLACK`,
`SH110X_WHITE`, `SH110X_INVERSE`). -/
inductive Color where
  | black : Color
  | white : Color
  | inverse : Color
deriving DecidableEq, Repr

/-- Framebuffer size in bytes for a geometry: `ceil(height/8) * width`,
one byte per (page, column), 8 vertically stacked pixels per byte
(spec section 3, Display Geometry). -/
def fbSize (g : Geom) : Nat := ((g.HEIGHT + 7) / 8) * g.WIDTH

/-- Logical drawing width: rotation by 90 or 270 degrees swaps the
effective width and height (spec sections 3 and 4.4). -/
def logicalWidth (g : Geom) (rot : Nat) : Nat :=
  if rot % 2 = 1 then g.HEIGHT else g.WIDTH

/-- Logical drawing height under the current rotation. -/
def logicalHeight (g : Geom) (rot : Nat) : Nat :=
  if rot % 2 = 1 then g.WIDTH else g.HEIGHT

/-- Modelled from the spec: the rotation transform of section 4.4 — the
body that applies it is outside src/. The four orientations are the
standard quarter-turn mappings from logical coordinates onto the physical
`WIDTH x HEIGHT` rectangle; orientation 0 is the identity. -/
def rotateXY (g : Geom) (rot : Nat) (x y : Nat) : Nat × Nat :=
  match rot with
  | 1 => (g.WIDTH - 1 - y, x)
  | 2 => (g.WIDTH - 1 - x, g.HEIGHT - 1 - y)
  | 3 => (y, g.HEIGHT - 1 - x)
  | _ => (x, y)

/-- Byte index of physical pixel `(px, py)`: byte at
`page = py / 8`, `column = px`, pages laid out row-major
(spec section 4.1). -/
def pixelIndex (g : Geom) (px py : Nat) : Nat := (py / 8) * g.WIDTH + px

/-- The new framebuffer byte after writing color `c` over old byte
`old` at bit position `bit`: set, clear, or toggle that bit. -/
def applyColor (c : Color) (old : Nat) (bit : Nat) : Nat :=
  match c with
  | .white => old ||| (1 <<< bit)
  | .black => old &&& (0xFF ^^^ (1 <<< bit))
  | .inverse => old ^^^ (1 <<< bit)

/-- The bit value a `setPixel` write leaves at the addressed position,
given the previous bit value: `white` writes 1, `black` writes 0,
`inverse` writes the flipped previous bit. -/
def colorBit (c : Color) (old : Bool) : Bool :=
  match c with
  | .white => true
  | .black => false
  | .inverse => !old

/-- Dirty-region bounding window over (page, column) byte positions
(spec section 3, Dirty Region). -/
structure Window where
  minPage : Nat
  maxPage : Nat
  minCol : Nat
  maxCol : Nat
deriving DecidableEq, Repr

/-- Extend an optional dirty window to include byte position `(p, c)`;
an empty region becomes the single-byte window. -/
def growWindow : Option Window → Nat → Nat → Option Window
  | none, p, c => some ⟨p, p, c, c⟩
  | some w, p, c =>
      some ⟨min w.minPage p, max w.maxPage p, min w.minCol c, max w.maxCol c⟩

/-- Driver state relevant to the flush engine: the owned framebuffer
bytes and the dirty window (none when empty). -/
structure DState where
  fb : List Nat
  dirty : Option Window
deriving DecidableEq, Repr

/-- Modelled from the spec: `setPixel(x, y, color)` (spec section 4.1) —
the pixel-write body is outside src/. Logical coordinates are mapped
through the rotation transform; in-bounds writes update the bit at
`page = y/8, column = x` of the physical position and extend the dirty
window; out-of-range coordinates are a silent no-op. -/
def setPixel (g : Geom) (rot : Nat) (s : DState) (x y : Int)
    (c : Color) : DState :=
  if 0 ≤ x ∧ x < logicalWidth g rot ∧ 0 ≤ y ∧ y < logicalHeight g rot then
    let p := rotateXY g rot x.toNat y.toNat
    let idx := pixelIndex g p.1 p.2
    { fb := s.fb.set idx (applyColor c (s.fb.getD idx 0) (p.2 % 8)),
      dirty := growWindow s.dirty (p.2 / 8) p.1 }
  else s

/-- Read back the framebuffer bit addressed by logical `(x, y)` under
the current rotation. -/
def readPixel (g : Geom) (rot : Nat) (fb : List Nat) (x y : Int) : Bool :=
  let p := rotateXY g rot x.toNat y.toNat
  Nat.testBit (fb.getD (pixelIndex g p.1 p.2) 0) (p.2 % 8)

/-- One bus transfer issued during a flush: a command transfer
(addressing bytes) or a data transfer (framebuffer bytes). -/
inductive Op where
  | cmdXfer (bs : List Nat) : Op
  | dataXfer (bs : List Nat) : Op
deriving DecidableEq, Repr

/-- Modelled from the spec: the per-page transfers of the
addressing/transfer protocol (spec section 4.2) — set page address, set
column address low/high pair positioned at `minCol`, then the contiguous
byte run `[minCol, maxCol]` of that page. -/
def pageOps (g : Geom) (fb : List Nat) (w : Window) (p : Nat) : List Op :=
  [Op.cmdXfer [SH110X_SETPAGEADDR + p,
               SH110X_SETLOWCOLUMN + w.minCol % 16,
               SH110X_SETHIGHCOLUMN + w.minCol / 16],
   Op.dataXfer ((fb.drop (p * g.WIDTH + w.minCol)).take
                  (w.maxCol + 1 - w.minCol))]

/-- Modelled from the spec: the transfers of one flush of window `w` —
pages iterated from `minPage` to `maxPage` inclusive, page-major
(spec section 4.2). -/
def flushOps (g : Geom) (fb : List Nat) (w : Window) : List Op :=
  (List.range (w.maxPage + 1 - w.minPage)).flatMap
    (fun i => pageOps g fb w (w.minPage + i))

/-- Modelled from the spec: `Adafruit_SH110X::display()` — only declared
in src/Adafruit_SH110X.h, its body is outside src/. An empty dirty
region flushes as a no-op with no bus traffic; otherwise the window's
transfers are issued, and the dirty region is reset to empty exactly
when every transfer succeeds (oracle `o` gives the outcome of the i-th
transfer of this call); on any failure the state is left unchanged so a
retry re-sends the same window (spec section 4.2). The result is the
list of transfers issued and the new state. -/
def display (g : Geom) (s : DState) (o : Nat → Bool) : List Op × DState :=
  match s.dirty with
  | none => ([], s)
  | some w =>
      let ops := flushOps g s.fb w
      if (List.range ops.length).all o
      then (ops, ⟨s.fb, none⟩)
      else (ops, s)

end SH110x

namespace SH110x

/-! ## Theorems about `Adafruit_SH1107::begin` -/

/-- C4: the fixed initialization command list submitted by `begin` is 22
bytes long, which is at most the 32-byte chunk limit that the source
maintains as a comment-enforced convention. -/
theorem sh1107InitList_length_le_chunk :
    sh1107InitList.length = 22 ∧ sh1107InitList.length ≤ 32 := by
  constructor <;> decide

/-- C10: the symbolic initialization command list resolves to exactly
the stated concrete byte sequence, and the final display-on command byte
is 0xAF. -/
theorem sh1107InitList_concrete_bytes :
    sh1107InitList = [0xAE, 0xD5, 0x51, 0x20, 0x81, 0x4F, 0xAD, 0x8A,
      0xA0, 0xC0, 0xDC, 0x00, 0xD3, 0x60, 0xD9, 0x22, 0xDB, 0x35, 0xA8,
      0x3F, 0xA4, 0xA6] ∧ SH110X_DISPLAYON = 0xAF := by
  constructor <;> rfl

/-- C1: in every successful run of `begin`, the command-sequencer
submissions are exactly one command-list submission carrying the fixed
init sequence in source order (display-off; clock divider; memory mode;
contrast; DC-DC; segment remap; scan direction; display start line;
display offset; precharge; VCOM detect; multiplex; all-pixels-on-resume;
normal display) followed by the single `SH110X_DISPLAYON` command, and
the run ends with that list, the fixed 100 ms settle delay, and then the
display-on command as the final controller command. -/
theorem begin_init_sequence (g : Geom) (v : Bool) (rot addr : Nat)
    (reset : Bool) (o : BusOracle)
    (h : (begin g v rot addr reset o).ok = true) :
    (begin g v rot addr reset o).events.filter Ev.isSubmission
      = [Ev.cmdList [SH110X_DISPLAYOFF,
          SH110X_SETDISPLAYCLOCKDIV, 0x51,
          SH110X_MEMORYMODE,
          SH110X_SETCONTRAST, 0x4F,
          SH110X_DCDC, 0x8A,
          SH110X_SEGREMAP,
          SH110X_COMSCANINC,
          SH110X_SETDISPSTARTLINE, 0x0,
          SH110X_SETDISPLAYOFFSET, 0x60,
          SH110X_SETPRECHARGE, 0x22,
          SH110X_SETVCOMDETECT, 0x35,
          SH110X_SETMULTIPLEX, 0x3F,
          SH110X_DISPLAYALLON_RESUME,
          SH110X_NORMALDISPLAY],
         Ev.cmd SH110X_DISPLAYON] ∧
    (∃ pre, (begin g v rot addr reset o).events
      = pre ++ [Ev.cmdList sh1107InitList, Ev.delayMs 100,
                Ev.cmd SH110X_DISPLAYON]) := by
  rcases o with ⟨i, l, d⟩
  cases l with
  | false => simp [begin] at h
  | true =>
      constructor
      · by_cases hs : g.WIDTH = 64 ∧ g.HEIGHT = 128 <;>
          cases hr : v && reset <;>
            simp [begin, grayOledInit, Ev.isSubmission, hs, hr,
              sh1107InitList]
      · exact ⟨grayOledInit v addr reset ++ [Ev.contrast 0x2F] ++
          (if g.WIDTH = 64 ∧ g.HEIGHT = 128
           then [Ev.setRot 1, Ev.splashDraw, Ev.setRot 0] else []),
          by simp [begin]⟩

/-- C1 witness: the theorem instantiated at a concrete successful run. -/
theorem begin_init_sequence_witness :
    (begin ⟨64, 128⟩ true 0 0x3D true ⟨true, true, true⟩).events.filter
        Ev.isSubmission
      = [Ev.cmdList [SH110X_DISPLAYOFF,
          SH110X_SETDISPLAYCLOCKDIV, 0x51,
          SH110X_MEMORYMODE,
          SH110X_SETCONTRAST, 0x4F,
          SH110X_DCDC, 0x8A,
          SH110X_SEGREMAP,
          SH110X_COMSCANINC,
          SH110X_SETDISPSTARTLINE, 0x0,
          SH110X_SETDISPLAYOFFSET, 0x60,
          SH110X_SETPRECHARGE, 0x22,
          SH110X_SETVCOMDETECT, 0x35,
          SH110X_SETMULTIPLEX, 0x3F,
          SH110X_DISPLAYALLON_RESUME,
          SH110X_NORMALDISPLAY],
         Ev.cmd SH110X_DISPLAYON] ∧
    (∃ pre, (begin ⟨64, 128⟩ true 0 0x3D true ⟨true, true, true⟩).events
      = pre ++ [Ev.cmdList sh1107InitList, Ev.delayMs 100,
                Ev.cmd SH110X_DISPLAYON]) :=
  begin_init_sequence ⟨64, 128⟩ true 0 0x3D true ⟨true, true, true⟩ rfl

/-- C2: evaluating `begin` at the failing input — every transfer
succeeds except the final `SH110X_DISPLAYON` transfer (oracle
`displayOnOk = false`) — the display-on command is issued, its failure
is ignored, and `begin` still returns true. -/
theorem begin_ignores_displayon_failure :
    (begin ⟨64, 128⟩ true 0 0x3D true ⟨true, true, false⟩).ok = true ∧
    Ev.cmd SH110X_DISPLAYON
      ∈ (begin ⟨64, 128⟩ true 0 0x3D true ⟨true, true, false⟩).events := by
  decide

/-- C3: whenever the submission of the fixed initialization command list
fails, `begin` returns false, the failed list submission is the last
event of the run, and `SH110X_DISPLAYON` is never issued. -/
theorem begin_abort_on_list_failure (g : Geom) (v : Bool) (rot addr : Nat)
    (reset : Bool) (o : BusOracle) (h : o.listOk = false) :
    (begin g v rot addr reset o).ok = false ∧
    Ev.cmd SH110X_DISPLAYON ∉ (begin g v rot addr reset o).events ∧
    (begin g v rot addr reset o).events.getLast?
      = some (Ev.cmdList sh1107InitList) := by
  rcases o with ⟨i, l, d⟩
  cases l with
  | true => simp at h
  | false =>
      refine ⟨by simp [begin], ?_, ?_⟩
      · by_cases hs : g.WIDTH = 64 ∧ g.HEIGHT = 128 <;>
          cases hr : v && reset <;>
            simp [begin, grayOledInit, hs, hr]
      · have : (begin g v rot addr reset ⟨i, false, d⟩).events
            = (grayOledInit v addr reset ++ [Ev.contrast 0x2F] ++
               (if g.WIDTH = 64 ∧ g.HEIGHT = 128
                then [Ev.setRot 1, Ev.splashDraw, Ev.setRot 0] else []))
              ++ [Ev.cmdList sh1107InitList] := by
          simp [begin]
        rw [this, List.getLast?_concat]

/-- C3 witness: the theorem instantiated at a concrete failing run. -/
theorem begin_abort_on_list_failure_witness :
    (begin ⟨64, 128⟩ true 0 0x3D true ⟨true, false, true⟩).ok = false ∧
    Ev.cmd SH110X_DISPLAYON
      ∉ (begin ⟨64, 128⟩ true 0 0x3D true ⟨true, false, true⟩).events ∧
    (begin ⟨64, 128⟩ true 0 0x3D true ⟨true, false, true⟩).events.getLast?
      = some (Ev.cmdList sh1107InitList) :=
  begin_abort_on_list_failure ⟨64, 128⟩ true 0 0x3D true
    ⟨true, false, true⟩ rfl

/-- C8: `begin` forwards the caller's address and hardware-reset request
unchanged to the underlying `_init`; a hardware reset pulse occurs
exactly when a valid reset pin is configured and the caller requests a
reset; and with no reset pin configured, a run whose command-list
submission succeeds still returns success with zero reset-pin
operations. -/
theorem begin_reset_forwarding (g : Geom) (v : Bool) (rot addr : Nat)
    (reset : Bool) (o : BusOracle) :
    Ev.initCall addr reset ∈ (begin g v rot addr reset o).events ∧
    (Ev.resetPulse ∈ (begin g v rot addr reset o).events
      ↔ v = true ∧ reset = true) ∧
    (begin g false rot addr reset o).events.count Ev.resetPulse = 0 ∧
    (o.listOk = true → (begin g false rot addr reset o).ok = true) := by
  refine ⟨?_, ?_, ?_, ?_⟩
  · by_cases hs : g.WIDTH = 64 ∧ g.HEIGHT = 128 <;>
      cases hl : o.listOk <;>
        simp [begin, grayOledInit, hs, hl]
  · by_cases hs : g.WIDTH = 64 ∧ g.HEIGHT = 128 <;>
      cases hl : o.listOk <;>
        cases v <;> cases reset <;>
          simp [begin, grayOledInit, hs, hl]
  · by_cases hs : g.WIDTH = 64 ∧ g.HEIGHT = 128 <;>
      cases hl : o.listOk <;>
        simp [begin, grayOledInit, hs, hl]
  · intro hl
    simp [begin, hl]

/-- C8 witness: the theorem instantiated with no reset pin configured
and a successful command-list submission; the inner hypothesis is
discharged, showing the run returns success. -/
theorem begin_reset_forwarding_witness :
    (begin ⟨128, 128⟩ false 0 0x3D true ⟨true, true, true⟩).ok = true :=
  (begin_reset_forwarding ⟨128, 128⟩ false 0 0x3D true
    ⟨true, true, true⟩).2.2.2 rfl

/-- C9: `begin` draws the splash bitmap exactly when the physical
geometry is width 64 and height 128, in that case setting rotation to 1,
drawing, and setting rotation back to 0 (consecutively, before any
further event), ending with rotation 0; for every other geometry the run
contains no bitmap draw and no rotation change, and the rotation state
is left untouched. -/
theorem begin_splash_rotation (g : Geom) (v : Bool) (rot addr : Nat)
    (reset : Bool) (o : BusOracle) :
    ((g.WIDTH = 64 ∧ g.HEIGHT = 128) →
      (∃ pre post, (begin g v rot addr reset o).events
          = pre ++ [Ev.setRot 1, Ev.splashDraw, Ev.setRot 0] ++ post) ∧
      (begin g v rot addr reset o).rotation = 0) ∧
    (¬(g.WIDTH = 64 ∧ g.HEIGHT = 128) →
      Ev.splashDraw ∉ (begin g v rot addr reset o).events ∧
      (∀ r, Ev.setRot r ∉ (begin g v rot addr reset o).events) ∧
      (begin g v rot addr reset o).rotation = rot) := by
  constructor
  · intro hs
    constructor
    · refine ⟨grayOledInit v addr reset ++ [Ev.contrast 0x2F],
        (if o.listOk
         then [Ev.cmdList sh1107InitList, Ev.delayMs 100,
               Ev.cmd SH110X_DISPLAYON]
         else [Ev.cmdList sh1107InitList]), ?_⟩
      cases hl : o.listOk <;> simp [begin, hs, hl]
    · cases hl : o.listOk <;> simp [begin, hs, hl]
  · intro hs
    refine ⟨?_, ?_, ?_⟩
    · cases hl : o.listOk <;> simp [begin, grayOledInit, hs, hl]
    · intro r
      cases hl : o.listOk <;> simp [begin, grayOledInit, hs, hl]
    · cases hl : o.listOk <;> simp [begin, hs, hl]

/-- C9 witness: the theorem instantiated at the 64x128 geometry (splash
drawn, rotation restored to 0) and at a 128x64 geometry (rotation state
3 untouched). -/
theorem begin_splash_rotation_witness :
    (begin ⟨64, 128⟩ true 3 0x3D true ⟨true, true, true⟩).rotation = 0 ∧
    (begin ⟨128, 64⟩ true 3 0x3D true ⟨true, true, true⟩).rotation = 3 :=
  ⟨((begin_splash_rotation ⟨64, 128⟩ true 3 0x3D true
      ⟨true, true, true⟩).1 ⟨rfl, rfl⟩).2,
   ((begin_splash_rotation ⟨128, 64⟩ true 3 0x3D true
      ⟨true, true, true⟩).2 (by decide)).2.2⟩

/-! ## Theorems about the framebuffer and the flush engine -/

/-- In-bounds logical coordinates map under every rotation state to a
physical position inside the `WIDTH x HEIGHT` rectangle. -/
lemma rotateXY_bounds (g : Geom) (rot : Nat) (x y : Nat) (hrot : rot < 4)
    (hx : x < logicalWidth g rot) (hy : y < logicalHeight g rot) :
    (rotateXY g rot x y).1 < g.WIDTH ∧ (rotateXY g rot x y).2 < g.HEIGHT := by
  interval_cases rot <;>
    simp [rotateXY, logicalWidth, logicalHeight] at * <;> omega

/-- The byte index of a physical pixel is inside the framebuffer. -/
lemma pixelIndex_lt_fbSize (g : Geom) (px py : Nat) (hpx : px < g.WIDTH)
    (hpy : py < g.HEIGHT) : pixelIndex g px py < fbSize g := by
  have h1 : py / 8 + 1 ≤ (g.HEIGHT + 7) / 8 := by omega
  have h2 : pixelIndex g px py < (py / 8 + 1) * g.WIDTH := by
    have hs : (py / 8 + 1) * g.WIDTH = (py / 8) * g.WIDTH + g.WIDTH := by
      ring
    simp only [pixelIndex, hs]
    omega
  exact Nat.lt_of_lt_of_le h2 (Nat.mul_le_mul_right _ h1)

/-- Reading back a byte just written with `List.set` at an in-range
index. -/
lemma getD_set_self (l : List Nat) (i v : Nat) (h : i < l.length) :
    (l.set i v).getD i 0 = v := by
  simp [List.getD_eq_getElem?_getD, List.getElem?_set_self, h]

/-- The bit a color write leaves at the addressed bit position. -/
lemma testBit_applyColor (c : Color) (old bit : Nat) (hb : bit < 8) :
    Nat.testBit (applyColor c old bit) bit
      = colorBit c (Nat.testBit old bit) := by
  have h255 : Nat.testBit 0xFF bit = true := by
    have h : (0xFF : Nat) = 2 ^ 8 - 1 := by norm_num
    rw [h, Nat.testBit_two_pow_sub_one]
    simpa using hb
  cases c with
  | white =>
      simp [applyColor, colorBit, Nat.testBit_or, Nat.one_shiftLeft,
        Nat.testBit_two_pow_self]
  | black =>
      simp [applyColor, colorBit, Nat.testBit_and, Nat.testBit_xor,
        Nat.one_shiftLeft, Nat.testBit_two_pow_self, h255]
  | inverse =>
      simp [applyColor, colorBit, Nat.testBit_xor, Nat.one_shiftLeft,
        Nat.testBit_two_pow_self, Bool.xor_true]

/-- C5: for every rotation state and all logical coordinates within the
geometry bounds, `setPixel` followed by a read of the corresponding
framebuffer bit yields the written color (for `inverse`, the flipped
previous bit); and for all out-of-bounds coordinates, `setPixel` leaves
every byte of the framebuffer — indeed the whole driver state —
unchanged. -/
theorem setPixel_readback (g : Geom) (rot : Nat) (s : DState) (x y : Int)
    (c : Color) (hrot : rot < 4) (hlen : s.fb.length = fbSize g) :
    ((0 ≤ x ∧ x < logicalWidth g rot ∧ 0 ≤ y ∧ y < logicalHeight g rot) →
      readPixel g rot (setPixel g rot s x y c).fb x y
        = colorBit c (readPixel g rot s.fb x y)) ∧
    (¬(0 ≤ x ∧ x < logicalWidth g rot ∧ 0 ≤ y ∧ y < logicalHeight g rot) →
      setPixel g rot s x y c = s) := by
  constructor
  · rintro ⟨hx0, hxw, hy0, hyh⟩
    have hx : x.toNat < logicalWidth g rot := by omega
    have hy : y.toNat < logicalHeight g rot := by omega
    obtain ⟨hpx, hpy⟩ := rotateXY_bounds g rot x.toNat y.toNat hrot hx hy
    have hidx : pixelIndex g (rotateXY g rot x.toNat y.toNat).1
        (rotateXY g rot x.toNat y.toNat).2 < s.fb.length := by
      rw [hlen]; exact pixelIndex_lt_fbSize g _ _ hpx hpy
    have hbit : (rotateXY g rot x.toNat y.toNat).2 % 8 < 8 :=
      Nat.mod_lt _ (by norm_num)
    simp only [setPixel, if_pos (by exact ⟨hx0, hxw, hy0, hyh⟩ :
      0 ≤ x ∧ x < logicalWidth g rot ∧ 0 ≤ y ∧ y < logicalHeight g rot),
      readPixel]
    rw [getD_set_self _ _ _ hidx]
    exact testBit_applyColor c _ _ hbit
  · intro hout
    simp [setPixel, hout]

/-- C5 witness: the theorem instantiated at geometry 4x8, rotation 1,
with a white write at logical (0, 0), and its out-of-bounds part at
logical (-1, 0). -/
theorem setPixel_readback_witness :
    readPixel ⟨4, 8⟩ 1
        (setPixel ⟨4, 8⟩ 1 ⟨List.replicate 4 0, none⟩ 0 0 Color.white).fb
        0 0
      = colorBit Color.white
          (readPixel ⟨4, 8⟩ 1 (List.replicate 4 0) 0 0) ∧
    setPixel ⟨4, 8⟩ 1 ⟨List.replicate 4 0, none⟩ (-1) 0 Color.white
      = ⟨List.replicate 4 0, none⟩ :=
  ⟨(setPixel_readback ⟨4, 8⟩ 1 ⟨List.replicate 4 0, none⟩ 0 0 Color.white
      (by decide) (by decide)).1 (by decide),
   (setPixel_readback ⟨4, 8⟩ 1 ⟨List.replicate 4 0, none⟩ (-1) 0
      Color.white (by decide) (by decide)).2 (by decide)⟩

/-- C6: a flush during which some bus transfer fails leaves the whole
driver state — in particular the dirty region — unchanged, and a
subsequent flush whose transfers all succeed retransmits exactly the
transfers of the same page/column window and then resets the dirty
region to empty. -/
theorem display_failed_flush_retry (g : Geom) (s : DState) (w : Window)
    (o o2 : Nat → Bool) (hw : s.dirty = some w)
    (hfail : ¬((List.range (flushOps g s.fb w).length).all o = true))
    (hok : ∀ i, o2 i = true) :
    (display g s o).2 = s ∧
    (display g (display g s o).2 o2).1 = flushOps g s.fb w ∧
    (display g (display g s o).2 o2).2.dirty = none := by
  have h1 : (display g s o).2 = s := by
    simp [display, hw, hfail]
  have h2 : (List.range (flushOps g s.fb w).length).all o2 = true :=
    List.all_eq_true.mpr (fun i _ => hok i)
  refine ⟨h1, ?_, ?_⟩ <;> rw [h1] <;> simp [display, hw, h2]

/-- C6 witness: the theorem instantiated at geometry 4x8, a single-byte
dirty window, an all-failing first oracle and an all-succeeding second
oracle. -/
theorem display_failed_flush_retry_witness :
    (display ⟨4, 8⟩ ⟨List.replicate 4 0, some ⟨0, 0, 0, 0⟩⟩
        (fun _ => false)).2 = ⟨List.replicate 4 0, some ⟨0, 0, 0, 0⟩⟩ ∧
    (display ⟨4, 8⟩
        (display ⟨4, 8⟩ ⟨List.replicate 4 0, some ⟨0, 0, 0, 0⟩⟩
          (fun _ => false)).2 (fun _ => true)).1
      = flushOps ⟨4, 8⟩ (List.replicate 4 0) ⟨0, 0, 0, 0⟩ ∧
    (display ⟨4, 8⟩
        (display ⟨4, 8⟩ ⟨List.replicate 4 0, some ⟨0, 0, 0, 0⟩⟩
          (fun _ => false)).2 (fun _ => true)).2.dirty = none :=
  display_failed_flush_retry ⟨4, 8⟩ ⟨List.replicate 4 0, some ⟨0, 0, 0, 0⟩⟩
    ⟨0, 0, 0, 0⟩ (fun _ => false) (fun _ => true) rfl (by decide)
    (fun _ => rfl)

/-- C7: for every driver state, after a flush whose transfers all
succeed, an immediately following `display` with no intervening
framebuffer writes issues zero bus transfers — the flush of the then
empty dirty region is a no-op. -/
theorem display_idempotent (g : Geom) (s : DState) (o o2 : Nat → Bool)
    (hok : ∀ i, o i = true) :
    (display g (display g s o).2 o2).1 = [] := by
  cases hd : s.dirty with
  | none => simp [display, hd]
  | some w =>
      have h2 : (List.range (flushOps g s.fb w).length).all o = true :=
        List.all_eq_true.mpr (fun i _ => hok i)
      simp [display, hd, h2]

/-- C7 witness: the theorem instantiated at geometry 4x8 with a
non-empty dirty window and an all-succeeding oracle. -/
theorem display_idempotent_witness :
    (display ⟨4, 8⟩
        (display ⟨4, 8⟩ ⟨List.replicate 4 0, some ⟨0, 0, 0, 0⟩⟩
          (fun _ => true)).2 (fun _ => true)).1 = [] :=
  display_idempotent ⟨4, 8⟩ ⟨List.replicate 4 0, some ⟨0, 0, 0, 0⟩⟩
    (fun _ => true) (fun _ => true) (fun _ => rfl)

end SH110x
